import Mathlib

/-!
Verification development for the LaundryAI predictive-analytics pipeline.

The Python analytics code is shallowly embedded: dates are modelled as
day numbers (days since 1970-01-01, matching pandas day-granularity
timestamps), pandas numeric columns as `Rat`, order counts as `Nat`,
and the opaque fitted scikit-learn models (RandomForestRegressor,
IsolationForest) as explicit function parameters.  Fallible library
calls (fitting a LinearRegression on an empty table raises in sklearn)
are modelled with `Option`.
-/

namespace LaundryAI

/-! Section: Calendar arithmetic on day numbers

Day 0 is 1970-01-01 (a Thursday).  `dayOfWeek` matches pandas
`Timestamp.weekday` (Monday = 0 .. Sunday = 6).  `civilFromDays` and
`daysFromCivil` are the standard Gregorian conversion algorithms, used
to model the pandas `.dt.month`, `.dt.day`, `.dt.dayofyear` and ISO
`.dt.isocalendar().week` accessors. -/

def dayOfWeek (d : Nat) : Nat := (d + 3) % 7

def civilFromDays (z : Nat) : Nat × Nat × Nat :=
  let z2 := z + 719468
  let era := z2 / 146097
  let doe := z2 % 146097
  let yoe := (doe - doe / 1460 + doe / 36524 - doe / 146096) / 365
  let y := yoe + era * 400
  let doy := doe - (365 * yoe + yoe / 4 - yoe / 100)
  let mp := (5 * doy + 2) / 153
  let dd := doy - (153 * mp + 2) / 5 + 1
  let m := if mp < 10 then mp + 3 else mp - 9
  (if m ≤ 2 then y + 1 else y, m, dd)

def yearOf (d : Nat) : Nat := (civilFromDays d).1

def monthOf (d : Nat) : Nat := (civilFromDays d).2.1

def dayOfMonthOf (d : Nat) : Nat := (civilFromDays d).2.2

def isLeap (y : Nat) : Bool :=
  (y % 4 = 0 && !(y % 100 = 0)) || y % 400 = 0

def daysFromCivil (y m dd : Nat) : Nat :=
  let y2 := if m ≤ 2 then y - 1 else y
  let era := y2 / 400
  let yoe := y2 % 400
  let mp := if 2 < m then m - 3 else m + 9
  let doy := (153 * mp + 2) / 5 + dd - 1
  let doe := yoe * 365 + yoe / 4 - yoe / 100 + doy
  era * 146097 + doe - 719468

def dayOfYearOf (d : Nat) : Nat :=
  d - daysFromCivil (yearOf d) 1 1 + 1

def isoWeekday (d : Nat) : Nat := dayOfWeek d + 1

def isoWeeksInYear (y : Nat) : Nat :=
  let jan1 := daysFromCivil y 1 1
  if isoWeekday jan1 = 4 ∨ (isLeap y ∧ isoWeekday jan1 = 3) then 53 else 52

def isoWeekOfYear (d : Nat) : Nat :=
  let w := (10 + dayOfYearOf d - isoWeekday d) / 7
  if w = 0 then isoWeeksInYear (yearOf d - 1)
  else if isoWeeksInYear (yearOf d) < w then 1
  else w

/-! Section: Data model -/

/-- One row of the source order table
(`data/better_laundry_service_dataset.csv`): customer id, facility id,
order start date (day number), item, service, water litres,
electricity kWh, holiday flag and weekend flag (0/1). -/
structure OrderRecord where
  tenantID : String
  laundryID : String
  startDate : Nat
  item : String
  service : String
  waterLitres : Rat
  electricityKWh : Rat
  isHoliday : Nat
  isWeekend : Nat
deriving DecidableEq, Repr

/-- Fold maximum of a list of day numbers, 0 for the empty list
(models `Series.max` on a column; call sites guarantee nonemptiness). -/
def listMaxD (xs : List Nat) : Nat := xs.foldl max 0

/-- Minimum of a list of day numbers, 0 for the empty list. -/
def listMinD : List Nat → Nat
  | [] => 0
  | x :: xs => xs.foldl min x

/-- `data["StartDate"].min()` over the filtered order rows. -/
def minStartDate (data : List OrderRecord) : Nat :=
  listMinD (data.map (fun r => r.startDate))

/-- `data["StartDate"].max()` over the filtered order rows. -/
def maxStartDate (data : List OrderRecord) : Nat :=
  listMaxD (data.map (fun r => r.startDate))

/-- `data.groupby("StartDate").size()` evaluated at day `d`: the number
of order rows whose start date is `d`. -/
def ordersOn (data : List OrderRecord) (d : Nat) : Nat :=
  (data.filter (fun r => r.startDate = d)).length

/-- Length of the dense daily range `pd.date_range(min_date, max_date)`. -/
def seriesLen (data : List OrderRecord) : Nat :=
  maxStartDate data - minStartDate data + 1

/-- The dense daily order-count series after the left merge of the full
date range with the grouped counts and `fillna(0)`: entry `i` is the
count on day `minStartDate + i`. -/
def dailyCounts (data : List OrderRecord) : List Nat :=
  (List.range (seriesLen data)).map (fun i => ordersOn data (minStartDate data + i))

/-- The trailing window of width at most `w` ending at position `i`. -/
def rollWindow (w : Nat) (os : List Nat) (i : Nat) : List Nat :=
  ((os.take (i + 1)).reverse).take w

/-- `Series.rolling(window=w, min_periods=1).mean()` at position `i`:
the mean of the last `min (i+1) w` values up to and including `i`. -/
def rollingMean (w : Nat) (os : List Nat) (i : Nat) : Rat :=
  (((rollWindow w os i).map (Nat.cast : Nat → Rat)).sum) /
    (((rollWindow w os i).length : Nat) : Rat)

/-- `Series.shift(k).fillna(0)` at position `i`: the value `k` rows
earlier, or 0 when fewer than `k` rows of history exist. -/
def lagFeature (k : Nat) (os : List Nat) (i : Nat) : Nat :=
  if k ≤ i then os.getD (i - k) 0 else 0

/-- Holiday indicator for day `d`: 1 when some order row of the
filtered set has `IsHoliday == 1` on that date (the source builds the
holiday list as `data[data["IsHoliday"] == 1]["StartDate"].unique()`
and tests membership). -/
def isHolidayOn (data : List OrderRecord) (d : Nat) : Nat :=
  if data.any (fun r => r.isHoliday = 1 ∧ r.startDate = d) then 1 else 0

/-- One row of the customer daily feature table built by
`prepare_enhanced_data` (FeatureRow of the spec). -/
structure DailyRow where
  ds : Nat
  orders : Nat
  day_of_week : Nat
  is_weekend : Nat
  month : Nat
  day_of_month : Nat
  time_idx : Nat
  orders_7d_avg : Rat
  orders_28d_avg : Rat
  lag_1 : Nat
  lag_7 : Nat
  lag_14 : Nat
  lag_28 : Nat
  is_holiday : Nat
deriving DecidableEq, Repr

def defaultDailyRow : DailyRow :=
  { ds := 0, orders := 0, day_of_week := 0, is_weekend := 0, month := 0
    day_of_month := 0, time_idx := 0, orders_7d_avg := 0, orders_28d_avg := 0
    lag_1 := 0, lag_7 := 0, lag_14 := 0, lag_28 := 0, is_holiday := 0 }

/-- `prepare_enhanced_data` (customer_analysis.py lines 11-38): build
the dense daily range between the min and max observed date, left-join
the grouped daily counts with `fillna(0)`, then add calendar, rolling
and lag feature columns.  The final `dropna()` of the source is a
no-op because every column has already been filled (rolling means use
`min_periods=1`, lags use `fillna(0)`), so the embedding returns the
fully populated table directly. -/
def prepare_enhanced_data (data : List OrderRecord) : List DailyRow :=
  let minD := minStartDate data
  let os := dailyCounts data
  (List.range (seriesLen data)).map (fun i =>
    { ds := minD + i
      orders := os.getD i 0
      day_of_week := dayOfWeek (minD + i)
      is_weekend := if dayOfWeek (minD + i) = 5 ∨ dayOfWeek (minD + i) = 6 then 1 else 0
      month := monthOf (minD + i)
      day_of_month := dayOfMonthOf (minD + i)
      time_idx := i
      orders_7d_avg := rollingMean 7 os i
      orders_28d_avg := rollingMean 28 os i
      lag_1 := lagFeature 1 os i
      lag_7 := lagFeature 7 os i
      lag_14 := lagFeature 14 os i
      lag_28 := lagFeature 28 os i
      is_holiday := isHolidayOn data (minD + i) })

/-- Row `i` of the customer feature table (with an all-zero default
out of range), used to state the per-row invariants. -/
def featureRowAt (data : List OrderRecord) (i : Nat) : DailyRow :=
  (prepare_enhanced_data data).getD i defaultDailyRow

/-- The strictly increasing list of distinct order dates of a filtered
facility table, as produced by the (key-sorted) pandas
`groupby("StartDate")`. -/
def sortedOrderDates (laundry_df : List OrderRecord) : List Nat :=
  (List.range (maxStartDate laundry_df + 1)).filter
    (fun d => laundry_df.any (fun r => r.startDate = d))

/-- `prepare_laundry_data` (laundry_analysis.py lines 11-17): filter
the source table to one facility and group by start date with `size()`
— one `(ds, y)` row per day that has at least one order; days without
orders are NOT inserted. -/
def prepare_laundry_data (df : List OrderRecord) (laundry_id : String) : List (Nat × Nat) :=
  let laundry_df := df.filter (fun r => r.laundryID = laundry_id)
  (sortedOrderDates laundry_df).map (fun d => (d, ordersOn laundry_df d))

/-! Section: Demand forecaster (customer variant) -/

/-- Feature vector fed to the customer RandomForest model: the columns
of `daily_data.drop(columns=["orders","ds"])` in source order. -/
structure FeatureVec where
  day_of_week : Nat
  is_weekend : Nat
  month : Nat
  day_of_month : Nat
  time_idx : Nat
  orders_7d_avg : Rat
  orders_28d_avg : Rat
  lag_1 : Nat
  lag_7 : Nat
  lag_14 : Nat
  lag_28 : Nat
  is_holiday : Nat
deriving DecidableEq, Repr

/-- `Series.iloc[-k]` (k-th element from the end, defaulting to 0;
source call sites guard with a length check or nonemptiness). -/
def ilocFromEnd (os : List Nat) (k : Nat) : Nat :=
  os.getD (os.length - k) 0

/-- The future feature row built for forecast day `i` (0-based) in
`forecast_intermittent_demand` (customer_analysis.py lines 63-79):
calendar features come from the future date, while every lag and
rolling feature is frozen at the last known historical values
(`iloc[-1]`, `iloc[-7]`, `iloc[-14]`, `iloc[-28]`). -/
def futureFeatures (daily : List DailyRow) (customerData : List OrderRecord) (i : Nat) :
    FeatureVec :=
  let lastDate := listMaxD (daily.map (fun r => r.ds))
  let minDs := listMinD (daily.map (fun r => r.ds))
  let os := daily.map (fun r => r.orders)
  let d := lastDate + 1 + i
  { day_of_week := dayOfWeek d
    is_weekend := if dayOfWeek d = 5 ∨ dayOfWeek d = 6 then 1 else 0
    month := monthOf d
    day_of_month := dayOfMonthOf d
    time_idx := d - minDs
    orders_7d_avg := (daily.map (fun r => r.orders_7d_avg)).getLastD 0
    orders_28d_avg := (daily.map (fun r => r.orders_28d_avg)).getLastD 0
    lag_1 := os.getLastD 0
    lag_7 := if 7 ≤ daily.length then ilocFromEnd os 7 else 0
    lag_14 := if 14 ≤ daily.length then ilocFromEnd os 14 else 0
    lag_28 := if 28 ≤ daily.length then ilocFromEnd os 28 else 0
    is_holiday := isHolidayOn customerData d }

/-- One forecast output row: future date, point prediction, lower and
upper band. -/
structure ForecastRow where
  ds : Nat
  yhat : Rat
  yhat_lower : Rat
  yhat_upper : Rat
deriving DecidableEq, Repr

/-- `forecast_intermittent_demand` (customer_analysis.py lines 40-94).
The 80/20 chronological split and the RandomForest fit are opaque ML
steps; the fitted predictor is the explicit `model` parameter.  For
each of the 90 future days the feature row is `futureFeatures`, the
point forecast is clamped at 0 and the band is the ±30% fractional
band, each clamped at 0 (`np.maximum`).  Returns the historical
`(ds, orders)` series and the 90 future forecast rows (the source
additionally concatenates the historical rows, whose forecast columns
are left empty, onto the returned frame). -/
def forecast_intermittent_demand (model : FeatureVec → Rat)
    (daily : List DailyRow) (customerData : List OrderRecord) :
    List (Nat × Nat) × List ForecastRow :=
  let lastDate := listMaxD (daily.map (fun r => r.ds))
  let fut := (List.range 90).map (fun i =>
    let p := model (futureFeatures daily customerData i)
    { ds := lastDate + 1 + i
      yhat := max 0 p
      yhat_lower := max 0 (p * (7 / 10 : Rat))
      yhat_upper := max 0 (p * (13 / 10 : Rat)) : ForecastRow })
  (daily.map (fun r => (r.ds, r.orders)), fut)

/-! Section: Demand forecaster (facility variant) -/

/-- `forecast_demand_laundry_rf` (laundry_analysis.py lines 19-44).
Features are day-of-year, day-of-week and ISO week-of-year only; the
RandomForest fit on the full series is the opaque `model` parameter.
The band is the fixed additive ±1.5 around the point prediction.
Returns the future forecast rows (the source also returns the input
frame with its feature columns and the fitted model). -/
def forecast_demand_laundry_rf (model : Nat × Nat × Nat → Rat)
    (daily : List (Nat × Nat)) (forecast_days : Nat) : List ForecastRow :=
  let lastDate := listMaxD (daily.map (fun p => p.1))
  (List.range forecast_days).map (fun i =>
    let d := lastDate + 1 + i
    let p := model (dayOfYearOf d, dayOfWeek d, isoWeekOfYear d)
    { ds := d
      yhat := p
      yhat_lower := p - (3 / 2 : Rat)
      yhat_upper := p + (3 / 2 : Rat) : ForecastRow })

/-- `detect_low_demand_days` (laundry_analysis.py lines 82-92): build
the facility daily series; on an empty series return `none`
(`None, None` in the source); otherwise forecast 7 days and select the
rows with `yhat < threshold`. -/
def detect_low_demand_days (model : Nat × Nat × Nat → Rat)
    (df : List OrderRecord) (laundry_id : String) (threshold : Rat) :
    Option (List ForecastRow × List ForecastRow) :=
  let daily := prepare_laundry_data df laundry_id
  if daily.isEmpty then none
  else
    let forecast := forecast_demand_laundry_rf model daily 7
    some (forecast, forecast.filter (fun r => r.yhat < threshold))

/-- Peak-day selection used by `show_peak_forecast` (line 139) and
`show_peak_alerts` (line 163): `forecast[forecast["yhat"] > threshold]`. -/
def peakDays (forecast : List ForecastRow) (threshold : Rat) : List ForecastRow :=
  forecast.filter (fun r => threshold < r.yhat)

/-! Section: Resource-consumption analyzer -/

/-- Ordinary-least-squares fit-and-predict of
`sklearn.linear_model.LinearRegression().fit(X, y).predict(X)` for a
single feature.  With zero samples sklearn raises (`none`); when the
feature is constant the centered least-squares problem is rank
deficient and the minimum-norm solution has slope 0 and intercept the
mean of `y`. -/
def linRegPredict (xs ys : List Rat) : Option (List Rat) :=
  if xs.isEmpty then none
  else
    let n : Rat := (xs.length : Nat)
    let sx := xs.sum
    let sy := ys.sum
    let sxx := (xs.map (fun x => x * x)).sum
    let sxy := ((xs.zip ys).map (fun p => p.1 * p.2)).sum
    let den := n * sxx - sx * sx
    let slope := if den = 0 then 0 else (n * sxy - sx * sy) / den
    let intercept := (sy - slope * sx) / n
    some (xs.map (fun x => intercept + slope * x))

/-- Total water consumption of the filtered facility rows on day `d`
(the `"Water_Litres": "sum"` aggregation). -/
def sumWaterOn (laundry_df : List OrderRecord) (d : Nat) : Rat :=
  ((laundry_df.filter (fun r => r.startDate = d)).map (fun r => r.waterLitres)).sum

/-- Total electricity consumption of the filtered facility rows on day
`d` (the `"Electricity_kWh": "sum"` aggregation). -/
def sumElecOn (laundry_df : List OrderRecord) (d : Nat) : Rat :=
  ((laundry_df.filter (fun r => r.startDate = d)).map (fun r => r.electricityKWh)).sum

/-- The per-order alert rule `check_alerts` (laundry_analysis.py lines
73-76): the alert string exactly when the IsolationForest label is -1
and the day's order count is below 5. -/
def check_alerts (anomaly : Int) (orderCount : Nat) : String :=
  if anomaly = -1 ∧ orderCount < 5 then "🚨 Alert: High usage on low order day"
  else "✅ Normal"

/-- One output row of `laundry_resource_analysis` (ResourceDayRow of
the spec). -/
structure ResourceDayRow where
  startDate : Nat
  orderCount : Nat
  waterConsumption : Rat
  electricityConsumption : Rat
  expectedWater : Rat
  expectedElectricity : Rat
  waterError : Rat
  electricError : Rat
  anomaly : Int
  anomalyLabel : String
  alert : String
deriving DecidableEq, Repr

/-- `laundry_resource_analysis` (laundry_analysis.py lines 46-80):
filter to one facility, aggregate per day (order count = count of
TenantID, water and electricity = sums), fit the two single-feature
linear baselines (raising — `none` — on an empty table), compute the
residuals, and label each day with the IsolationForest verdict
(`detector`, the opaque fitted `fit_predict`, one ±1 label per row;
the pandas `.map` of any other value would be a missing label) and the
`check_alerts` rule. -/
def laundry_resource_analysis (detector : List (Rat × Rat) → Nat → Int)
    (df : List OrderRecord) (laundry_id : String) : Option (List ResourceDayRow) :=
  let laundry_df := df.filter (fun r => r.laundryID = laundry_id)
  let dates := sortedOrderDates laundry_df
  let counts := dates.map (fun d => ordersOn laundry_df d)
  let water := dates.map (fun d => sumWaterOn laundry_df d)
  let elec := dates.map (fun d => sumElecOn laundry_df d)
  let xs := counts.map (Nat.cast : Nat → Rat)
  match linRegPredict xs water, linRegPredict xs elec with
  | some ew, some ee =>
    let werr := (water.zip ew).map (fun p => p.1 - p.2)
    let eerr := (elec.zip ee).map (fun p => p.1 - p.2)
    let res := werr.zip eerr
    some ((List.range dates.length).map (fun i =>
      let a := detector res i
      { startDate := dates.getD i 0
        orderCount := counts.getD i 0
        waterConsumption := water.getD i 0
        electricityConsumption := elec.getD i 0
        expectedWater := ew.getD i 0
        expectedElectricity := ee.getD i 0
        waterError := werr.getD i 0
        electricError := eerr.getD i 0
        anomaly := a
        anomalyLabel := if a = 1 then "Normal" else if a = -1 then "Anomaly" else "missing"
        alert := check_alerts a (counts.getD i 0) }))
  | _, _ => none

/-! Section: Dashboard entry points (error-handling behaviour) -/

/-- Outcome of the facility resource-analysis page. -/
inductive AnalysisOutcome
  | raised
  | noData
  | rendered (rows : List ResourceDayRow)
deriving DecidableEq, Repr

/-- The laundry `show_resource_analysis` entry point
(laundry_analysis.py lines 206-215): it calls
`laundry_resource_analysis` FIRST and only then checks
`daily_usage.empty`; an exception inside the analysis therefore
escapes before the no-data check can run. -/
def show_resource_analysis (detector : List (Rat × Rat) → Nat → Int)
    (df : List OrderRecord) (laundry_id : String) : AnalysisOutcome :=
  match laundry_resource_analysis detector df laundry_id with
  | none => AnalysisOutcome.raised
  | some rows =>
    if rows.isEmpty then AnalysisOutcome.noData else AnalysisOutcome.rendered rows

/-- Outcome of the customer analysis entry point. -/
inductive CustomerOutcome
  | noData
  | analyzed (rows : List OrderRecord)
deriving DecidableEq, Repr

/-- The `customer_section` entry point (customer_analysis.py lines
226-240): filter by TenantID and surface no-data on an empty result
before any pipeline work. -/
def customer_section (df : List OrderRecord) (tenant_id : String) : CustomerOutcome :=
  let customer_data := df.filter (fun r => r.tenantID = tenant_id)
  if customer_data.isEmpty then CustomerOutcome.noData
  else CustomerOutcome.analyzed customer_data

/-! Section: Customer insights and future resource projection -/

/-- The "days since last order" insight of `generate_customer_insights`
(customer_analysis.py lines 100-103): `(datetime.now() - last_order).days`,
with the wall clock passed explicitly as `today`. -/
def daysSinceLastOrder (data : List OrderRecord) (today : Nat) : Int :=
  (today : Int) - (maxStartDate data : Int)

/-- One row of the future resource projection. -/
structure FutureResourceRow where
  ds : Nat
  yhat : Rat
  waterNeeded : Rat
  electricityNeeded : Rat
deriving DecidableEq, Repr

/-- `calculate_future_resource` (customer_analysis.py lines 218-224):
keep the forecast rows strictly after `datetime.now()` (the wall clock
passed explicitly as `now`) and scale the point forecast by the
historical per-order averages. -/
def calculate_future_resource (forecast : List ForecastRow)
    (avg_water avg_electricity : Rat) (now : Nat) : List FutureResourceRow :=
  (forecast.filter (fun r => now < r.ds)).map (fun r =>
    { ds := r.ds, yhat := r.yhat
      waterNeeded := r.yhat * avg_water
      electricityNeeded := r.yhat * avg_electricity })

/-- `customer_resource_analysis` per-order averages
(customer_analysis.py lines 205-216). -/
def customer_resource_analysis (customer_data : List OrderRecord) : Rat × Rat :=
  let total : Rat := (customer_data.length : Nat)
  (((customer_data.map (fun r => r.waterLitres)).sum) / total,
   ((customer_data.map (fun r => r.electricityKWh)).sum) / total)

/-! Section: Report synthesizer -/

/-- Column mean, `Series.mean()` (0 on the empty list, where pandas
would give NaN; call sites have a nonempty forecast period). -/
def colMean (xs : List Rat) : Rat := xs.sum / ((xs.length : Nat) : Rat)

/-- Floor of a rational number. -/
def ratFloor (q : Rat) : Int := ⌊q⌋

/-- Python 3 built-in `round` on a rational: round half to even. -/
def pyRound (q : Rat) : Int :=
  let f := ratFloor q
  let r := q - (f : Rat)
  if r < 1 / 2 then f
  else if 1 / 2 < r then f + 1
  else if f % 2 = 0 then f else f + 1

/-- The numeric content of the business report. -/
structure BusinessReport where
  avg_daily : Rat
  total_orders : Rat
  avg_lower : Rat
  avg_upper : Rat
  min_stock : Int
  weekly_stock_lo : Int
  weekly_stock_hi : Int
  buffer_stock : Int
deriving DecidableEq, Repr

/-- The numeric computations of `generate_business_report`
(customer_analysis.py lines 154-168): restrict the forecast to the
rows after the last actual date, average the point forecast and the
two bounds, and derive minimum stock `max(1, round(avg_lower))`, the
weekly restocking range `round(avg_daily*7*0.8)-round(avg_daily*7*1.2)`
and buffer stock `round(avg_upper * 2)` (the textual report wraps
these numbers in Markdown). -/
def generate_business_report (actual : List (Nat × Nat)) (forecast : List ForecastRow) :
    BusinessReport :=
  let lastActual := listMaxD (actual.map (fun p => p.1))
  let fp := forecast.filter (fun r => lastActual < r.ds)
  let avg_daily := colMean (fp.map (fun r => r.yhat))
  let avg_lower := colMean (fp.map (fun r => r.yhat_lower))
  let avg_upper := colMean (fp.map (fun r => r.yhat_upper))
  { avg_daily := avg_daily
    total_orders := (fp.map (fun r => r.yhat)).sum
    avg_lower := avg_lower
    avg_upper := avg_upper
    min_stock := max 1 (pyRound avg_lower)
    weekly_stock_lo := pyRound (avg_daily * 7 * (4 / 5 : Rat))
    weekly_stock_hi := pyRound (avg_daily * 7 * (6 / 5 : Rat))
    buffer_stock := pyRound (avg_upper * 2) }

/-! Section: Concrete fixtures for witnesses and counterexamples -/

/-- A concrete order row used in witnesses and counterexamples. -/
def mkOrder (tid lid : String) (d : Nat) : OrderRecord :=
  { tenantID := tid, laundryID := lid, startDate := d, item := "Shirt", service := "Wash"
    waterLitres := 10, electricityKWh := 2, isHoliday := 0, isWeekend := 0 }

/-- A facility with one order on day 0. -/
def oneDayDf : List OrderRecord := [mkOrder "T1" "L1" 0]

/-- A facility with orders on day 0 and day 2 but none on day 1. -/
def gapDf : List OrderRecord := [mkOrder "T1" "L1" 0, mkOrder "T1" "L1" 2]

/-- A trivially "all normal" stand-in for the fitted IsolationForest. -/
def constDetector : List (Rat × Rat) → Nat → Int := fun _ _ => 1

/-- A stand-in fitted facility model that always predicts 5 orders. -/
def constFive : Nat × Nat × Nat → Rat := fun _ => 5

/-- The single resource row the analyzer produces for `oneDayDf`. -/
def normalDayRow : ResourceDayRow :=
  { startDate := 0, orderCount := 1, waterConsumption := 10, electricityConsumption := 2
    expectedWater := 10, expectedElectricity := 2, waterError := 0, electricError := 0
    anomaly := 1, anomalyLabel := "Normal", alert := "✅ Normal" }

/-- A one-row forecast used in witnesses and counterexamples. -/
def exForecast : List ForecastRow :=
  [{ ds := 1, yhat := 2, yhat_lower := 1, yhat_upper := 3 }]

/-- A one-row forecast whose lower bound averages to 1/5 (rounds to 0). -/
def lowBandForecast : List ForecastRow :=
  [{ ds := 1, yhat := 1, yhat_lower := 1 / 5, yhat_upper := 2 }]

/-- The facility forecast row produced by `constFive` for day 1:
its prediction sits exactly on a threshold of 5. -/
def tieRow : ForecastRow := { ds := 1, yhat := 5, yhat_lower := 7 / 2, yhat_upper := 13 / 2 }

/-! Section: Helper lemmas -/

theorem prepare_enhanced_data_length (data : List OrderRecord) :
    (prepare_enhanced_data data).length = seriesLen data := by
  simp [prepare_enhanced_data]

theorem featureRowAt_def (data : List OrderRecord) (i : Nat) (hi : i < seriesLen data) :
    featureRowAt data i =
      { ds := minStartDate data + i
        orders := (dailyCounts data).getD i 0
        day_of_week := dayOfWeek (minStartDate data + i)
        is_weekend :=
          if dayOfWeek (minStartDate data + i) = 5 ∨ dayOfWeek (minStartDate data + i) = 6
          then 1 else 0
        month := monthOf (minStartDate data + i)
        day_of_month := dayOfMonthOf (minStartDate data + i)
        time_idx := i
        orders_7d_avg := rollingMean 7 (dailyCounts data) i
        orders_28d_avg := rollingMean 28 (dailyCounts data) i
        lag_1 := lagFeature 1 (dailyCounts data) i
        lag_7 := lagFeature 7 (dailyCounts data) i
        lag_14 := lagFeature 14 (dailyCounts data) i
        lag_28 := lagFeature 28 (dailyCounts data) i
        is_holiday := isHolidayOn data (minStartDate data + i) } := by
  have hlen : i < (prepare_enhanced_data data).length := by
    simpa [prepare_enhanced_data_length] using hi
  unfold featureRowAt
  rw [List.getD_eq_getElem _ _ hlen]
  simp [prepare_enhanced_data]

theorem dailyCounts_getD (data : List OrderRecord) (i : Nat) (hi : i < seriesLen data) :
    (dailyCounts data).getD i 0 = ordersOn data (minStartDate data + i) := by
  have hlen : i < (dailyCounts data).length := by simpa [dailyCounts] using hi
  rw [List.getD_eq_getElem _ _ hlen]
  simp [dailyCounts]

theorem rollingMean_nonneg (w : Nat) (os : List Nat) (i : Nat) : 0 ≤ rollingMean w os i := by
  unfold rollingMean
  refine div_nonneg (List.sum_nonneg ?_) (by positivity)
  intro x hx
  simp only [List.mem_map] at hx
  obtain ⟨y, -, rfl⟩ := hx
  positivity

theorem lagFeature_eq_zero (k : Nat) (os : List Nat) (i : Nat) (h : i < k) :
    lagFeature k os i = 0 := by
  unfold lagFeature
  rw [if_neg]
  omega

theorem ordersOn_pos_of_mem_sortedOrderDates (ldf : List OrderRecord) (d : Nat)
    (hd : d ∈ sortedOrderDates ldf) : 1 ≤ ordersOn ldf d := by
  unfold sortedOrderDates at hd
  rw [List.mem_filter] at hd
  obtain ⟨-, hp⟩ := hd
  rw [List.any_eq_true] at hp
  obtain ⟨x, hx, hxd⟩ := hp
  have hmem : x ∈ ldf.filter (fun r => r.startDate = d) := List.mem_filter.mpr ⟨hx, hxd⟩
  have := List.length_pos.mpr (List.ne_nil_of_mem hmem)
  simpa [ordersOn] using this

theorem le_foldl_max_init (xs : List Nat) : ∀ a, a ≤ xs.foldl max a := by
  induction xs with
  | nil => intro a; exact le_refl a
  | cons y ys ih => intro a; exact le_trans (le_max_left a y) (ih (max a y))

theorem le_foldl_max_of_mem (xs : List Nat) (x : Nat) (hx : x ∈ xs) :
    ∀ a, x ≤ xs.foldl max a := by
  induction xs with
  | nil => cases hx
  | cons y ys ih =>
    intro a
    rw [List.foldl_cons]
    rcases List.mem_cons.mp hx with rfl | hmem
    · exact le_trans (le_max_right a x) (le_foldl_max_init ys (max a x))
    · exact ih hmem (max a y)

theorem le_listMaxD (xs : List Nat) (x : Nat) (hx : x ∈ xs) : x ≤ listMaxD xs :=
  le_foldl_max_of_mem xs x hx 0

theorem mem_sortedOrderDates_of_order (ldf : List OrderRecord) (d : Nat)
    (h : 1 ≤ ordersOn ldf d) : d ∈ sortedOrderDates ldf := by
  unfold ordersOn at h
  have hne : ldf.filter (fun r => r.startDate = d) ≠ [] := by
    intro hnil
    rw [hnil] at h
    simp at h
  obtain ⟨r, hr⟩ := List.exists_mem_of_ne_nil _ hne
  have hrmem : r ∈ ldf := (List.mem_filter.mp hr).1
  have hrd : r.startDate = d := by
    have := (List.mem_filter.mp hr).2
    simpa using this
  unfold sortedOrderDates
  rw [List.mem_filter]
  refine ⟨?_, ?_⟩
  · rw [List.mem_range]
    have hd : d ≤ maxStartDate ldf := by
      rw [← hrd]
      exact le_listMaxD _ _ (List.mem_map_of_mem _ hrmem)
    omega
  · rw [List.any_eq_true]
    exact ⟨r, hrmem, by simpa using hrd⟩

theorem max_zero_mul_le_max_zero (p c : Rat) (hc0 : 0 ≤ c) (hc1 : c ≤ 1) :
    max 0 (p * c) ≤ max 0 p := by
  refine max_le (le_max_left 0 p) ?_
  rcases le_total p 0 with hp | hp
  · exact le_trans (mul_nonpos_of_nonpos_of_nonneg hp hc0) (le_max_left 0 p)
  · refine le_trans ?_ (le_max_right 0 p)
    nlinarith

theorem max_zero_le_max_zero_mul (p c : Rat) (hc : 1 ≤ c) :
    max 0 p ≤ max 0 (p * c) := by
  refine max_le (le_max_left 0 _) ?_
  rcases le_total p 0 with hp | hp
  · exact le_trans hp (le_max_left 0 _)
  · refine le_trans ?_ (le_max_right 0 _)
    nlinarith

/-! Section: Claim C1 -/

/-- The shape invariants of the two daily-series builders: the customer
builder has one row per calendar day from the minimum to the maximum
observed date with the row's count equal to the number of orders that
day (zero when there are none); the facility builder has strictly
increasing dates and its rows are EXACTLY the days with at least one
order — every produced row is such a day with its true positive count
(soundness) and every day with at least one order produces its row
(completeness). -/
def dailySeriesShape (data df : List OrderRecord) (lid : String) : Prop :=
  ((prepare_enhanced_data data).length = maxStartDate data - minStartDate data + 1 ∧
    ∀ i, i < seriesLen data →
      (featureRowAt data i).ds = minStartDate data + i ∧
      (featureRowAt data i).orders = ordersOn data (minStartDate data + i)) ∧
  (List.Pairwise (fun p q => p.1 < q.1) (prepare_laundry_data df lid) ∧
    (∀ p ∈ prepare_laundry_data df lid,
      1 ≤ p.2 ∧ p.2 = ordersOn (df.filter (fun r => r.laundryID = lid)) p.1) ∧
    ∀ d, 1 ≤ ordersOn (df.filter (fun r => r.laundryID = lid)) d →
      (d, ordersOn (df.filter (fun r => r.laundryID = lid)) d) ∈ prepare_laundry_data df lid)

/-- Claim C1, amended.  The customer builder `prepare_enhanced_data`
produces exactly one row per calendar day between the minimum and
maximum observed order date inclusive, with days that have no orders
present with count 0 and dates strictly increasing with no gaps.  The
facility builder `prepare_laundry_data` does NOT zero-fill: its rows
are exactly the (strictly increasing) days with at least one order —
each produced row is such a day with its true positive count, and
every day with at least one order yields a row; gap days are absent. -/
theorem c1_daily_series_shape (data df : List OrderRecord) (lid : String)
    (hdata : data ≠ []) : dailySeriesShape data df lid := by
  refine ⟨⟨prepare_enhanced_data_length data, fun i hi => ?_⟩, ?_, ?_, ?_⟩
  · rw [featureRowAt_def data i hi, dailyCounts_getD data i hi]
    exact ⟨rfl, rfl⟩
  · unfold prepare_laundry_data
    rw [List.pairwise_map]
    exact (List.pairwise_lt_range _).sublist (List.filter_sublist _)
  · intro p hp
    unfold prepare_laundry_data at hp
    rw [List.mem_map] at hp
    obtain ⟨d, hd, rfl⟩ := hp
    exact ⟨ordersOn_pos_of_mem_sortedOrderDates _ d hd, rfl⟩
  · intro d hd
    unfold prepare_laundry_data
    exact List.mem_map.mpr ⟨d, mem_sortedOrderDates_of_order _ d hd, rfl⟩

/-- Witness for C1 at a concrete nonempty input. -/
theorem c1_daily_series_shape_witness : dailySeriesShape oneDayDf gapDf "L1" :=
  c1_daily_series_shape oneDayDf gapDf "L1" (by decide)

/-- Counterexample to C1 as stated: a facility with orders on day 0
and day 2 only.  The series spans three calendar days (min 0, max 2)
but `prepare_laundry_data` produces only two rows and no row for the
gap day 1, so the facility variant does not zero-fill gaps. -/
theorem c1_laundry_gap_counterexample :
    prepare_laundry_data gapDf "L1" = [(0, 1), (2, 1)] ∧
    minStartDate (gapDf.filter (fun r => r.laundryID = "L1")) = 0 ∧
    maxStartDate (gapDf.filter (fun r => r.laundryID = "L1")) = 2 ∧
    (prepare_laundry_data gapDf "L1").length ≠ 3 := by
  refine ⟨by decide, by decide, by decide, by decide⟩

/-! Section: Claim C2 -/

/-- Claim C2 (the code violates it): for the unknown facility
identifier "L999" the laundry resource page reaches the
LinearRegression fit on the empty filtered table and raises, because
`show_resource_analysis` runs `laundry_resource_analysis` before its
empty-result check; by contrast `customer_section` checks emptiness
first and surfaces the explicit no-data condition. -/
theorem c2_unknown_id_outcomes :
    show_resource_analysis constDetector oneDayDf "L999" = AnalysisOutcome.raised ∧
    customer_section oneDayDf "T999" = CustomerOutcome.noData := by
  refine ⟨by decide, by decide⟩

/-! Section: Claim C3 -/

/-- Claim C3: for every forecast row of the customer forecaster the
point prediction is nonnegative and the band brackets it, and for
every forecast row of the facility forecaster the band brackets the
point prediction — for any fitted model, input series and horizon. -/
theorem c3_forecast_bounds (model : FeatureVec → Rat) (fmodel : Nat × Nat × Nat → Rat)
    (daily : List DailyRow) (customerData : List OrderRecord)
    (fdaily : List (Nat × Nat)) (days : Nat) :
    (∀ r ∈ (forecast_intermittent_demand model daily customerData).2,
      0 ≤ r.yhat ∧ r.yhat_lower ≤ r.yhat ∧ r.yhat ≤ r.yhat_upper) ∧
    (∀ r ∈ forecast_demand_laundry_rf fmodel fdaily days,
      r.yhat_lower ≤ r.yhat ∧ r.yhat ≤ r.yhat_upper) := by
  constructor
  · intro r hr
    simp only [forecast_intermittent_demand, List.mem_map, List.mem_range] at hr
    obtain ⟨i, -, rfl⟩ := hr
    refine ⟨le_max_left 0 _, ?_, ?_⟩
    · exact max_zero_mul_le_max_zero _ _ (by norm_num) (by norm_num)
    · exact max_zero_le_max_zero_mul _ _ (by norm_num)
  · intro r hr
    simp only [forecast_demand_laundry_rf, List.mem_map, List.mem_range] at hr
    obtain ⟨i, -, rfl⟩ := hr
    constructor
    · simp only
      linarith [le_refl (fmodel (dayOfYearOf (listMaxD (fdaily.map (fun p => p.1)) + 1 + i),
          dayOfWeek (listMaxD (fdaily.map (fun p => p.1)) + 1 + i),
          isoWeekOfYear (listMaxD (fdaily.map (fun p => p.1)) + 1 + i)))]
    · simp only
      linarith [le_refl (fmodel (dayOfYearOf (listMaxD (fdaily.map (fun p => p.1)) + 1 + i),
          dayOfWeek (listMaxD (fdaily.map (fun p => p.1)) + 1 + i),
          isoWeekOfYear (listMaxD (fdaily.map (fun p => p.1)) + 1 + i)))]

/-! Section: Claim C4 -/

/-- Claim C4: in every row the resource analyzer outputs, the alert
string is the alert value exactly when the anomaly label is "Anomaly"
and the order count is strictly below 5 — for any IsolationForest
verdict function whose outputs are ±1. -/
theorem alert_label_iff (a : Int) (cnt : Nat) (ha : a = 1 ∨ a = -1) :
    check_alerts a cnt = "🚨 Alert: High usage on low order day" ↔
      (if a = 1 then "Normal" else if a = -1 then "Anomaly" else "missing") = "Anomaly" ∧
        cnt < 5 := by
  rcases ha with rfl | rfl
  · rw [check_alerts, if_neg (by simp)]
    simp
  · rw [check_alerts]
    by_cases hc : cnt < 5
    · rw [if_pos ⟨rfl, hc⟩]
      simp [hc]
    · rw [if_neg (by simp [hc])]
      simp [hc]

theorem c4_alert_iff (detector : List (Rat × Rat) → Nat → Int)
    (df : List OrderRecord) (lid : String)
    (hdet : ∀ res i, detector res i = 1 ∨ detector res i = -1)
    (rows : List ResourceDayRow)
    (hrows : laundry_resource_analysis detector df lid = some rows)
    (r : ResourceDayRow) (hr : r ∈ rows) :
    r.alert = "🚨 Alert: High usage on low order day" ↔
      r.anomalyLabel = "Anomaly" ∧ r.orderCount < 5 := by
  simp only [laundry_resource_analysis] at hrows
  split at hrows
  · rw [Option.some_inj] at hrows
    subst hrows
    rw [List.mem_map] at hr
    obtain ⟨i, -, rfl⟩ := hr
    exact alert_label_iff _ _ (hdet _ i)
  · exact absurd hrows (by simp)

/-- Concrete evaluation of the resource analyzer on `oneDayDf`. -/
theorem laundry_resource_analysis_oneDay :
    laundry_resource_analysis constDetector oneDayDf "L1" = some [normalDayRow] := by
  simp only [laundry_resource_analysis, sortedOrderDates, oneDayDf, mkOrder, maxStartDate,
    listMaxD, List.map_cons, List.map_nil, List.foldl_cons, List.foldl_nil]
  norm_num [List.filter_cons, List.filter_nil, List.range_succ, List.range_zero, ordersOn,
    sumWaterOn, sumElecOn, linRegPredict, normalDayRow, check_alerts, constDetector,
    List.zip_cons_cons, List.zip_nil_right, List.zip_nil_left]

/-- Witness for C4: the single row the analyzer produces for
`oneDayDf` under the all-normal detector satisfies the iff. -/
theorem c4_alert_iff_witness :
    normalDayRow.alert = "🚨 Alert: High usage on low order day" ↔
      normalDayRow.anomalyLabel = "Anomaly" ∧ normalDayRow.orderCount < 5 :=
  c4_alert_iff constDetector oneDayDf "L1" (fun _ _ => Or.inl rfl)
    [normalDayRow] laundry_resource_analysis_oneDay normalDayRow (by decide)

/-! Section: Claim C5 -/

/-- Claim C5, amended: the peak set is the rows with prediction
STRICTLY above the threshold and the low-demand set (the second
component of `detect_low_demand_days`) is the rows strictly below; a
forecast row whose prediction equals the threshold belongs to neither
set, so the two sets do not partition the forecast at the boundary. -/
theorem c5_strict_threshold_selection (forecast : List ForecastRow) (t : Rat) :
    (∀ r, r ∈ peakDays forecast t ↔ r ∈ forecast ∧ t < r.yhat) ∧
    (∀ model df lid F L, detect_low_demand_days model df lid t = some (F, L) →
      ∀ r, r ∈ L ↔ r ∈ F ∧ r.yhat < t) ∧
    (∀ r ∈ forecast, r.yhat = t →
      r ∉ peakDays forecast t ∧ r ∉ forecast.filter (fun s => s.yhat < t)) := by
  refine ⟨fun r => ?_, fun model df lid F L h r => ?_, fun r hr hyt => ⟨?_, ?_⟩⟩
  · simp [peakDays, List.mem_filter]
  · simp only [detect_low_demand_days] at h
    split at h
    · exact absurd h (by simp)
    · rw [Option.some_inj, Prod.mk.injEq] at h
      obtain ⟨rfl, rfl⟩ := h
      simp [List.mem_filter]
  · simp [peakDays, List.mem_filter, hyt]
  · simp [List.mem_filter, hyt]

/-- Witness for C5's amended statement: the day-1 facility forecast
row under the constant-5 model sits exactly on threshold 5 and is in
neither the peak set nor the low-demand set. -/
theorem c5_strict_threshold_selection_witness :
    tieRow ∉ peakDays
      (forecast_demand_laundry_rf constFive (prepare_laundry_data oneDayDf "L1") 30) 5 ∧
    tieRow ∉ (forecast_demand_laundry_rf constFive
      (prepare_laundry_data oneDayDf "L1") 30).filter (fun s => s.yhat < 5) :=
  (c5_strict_threshold_selection
    (forecast_demand_laundry_rf constFive (prepare_laundry_data oneDayDf "L1") 30) 5).2.2
    tieRow
    (by
      unfold forecast_demand_laundry_rf
      refine List.mem_map.mpr ⟨0, by decide, ?_⟩
      norm_num [prepare_laundry_data, sortedOrderDates, ordersOn, oneDayDf, mkOrder,
        maxStartDate, listMaxD, constFive, tieRow, List.filter_cons, List.filter_nil,
        List.range_succ, List.range_zero, ForecastRow.mk.injEq])
    rfl

/-- Counterexample to C5 as stated: under the constant-5 model every
one of the 30 facility forecast rows predicts exactly the threshold
value 5, yet the peak set is empty — a row whose prediction equals the
threshold is NOT in the peak set, because the code compares with a
strict `>`. -/
theorem c5_threshold_tie_counterexample :
    ((forecast_demand_laundry_rf constFive (prepare_laundry_data oneDayDf "L1") 30).map
      (fun r => r.yhat)) = List.replicate 30 5 ∧
    peakDays (forecast_demand_laundry_rf constFive (prepare_laundry_data oneDayDf "L1") 30) 5
      = [] := by
  constructor
  · rw [List.eq_replicate_iff]
    constructor
    · simp [forecast_demand_laundry_rf]
    · intro b hb
      simp only [forecast_demand_laundry_rf, constFive, List.map_map, List.mem_map,
        List.mem_range, Function.comp] at hb
      obtain ⟨i, -, rfl⟩ := hb
      rfl
  · simp [peakDays, forecast_demand_laundry_rf, constFive, List.filter_eq_nil_iff]

/-! Section: Claim C6 -/

/-- The lag and rolling inputs of the future feature row `i` are
frozen at the last known historical values and agree with those of any
other future row `j`, while the calendar fields are recomputed from
the future date. -/
def staticFutureInputs (daily : List DailyRow) (cd : List OrderRecord) (i j : Nat) : Prop :=
  (futureFeatures daily cd i).orders_7d_avg =
    (daily.map (fun r => r.orders_7d_avg)).getLastD 0 ∧
  (futureFeatures daily cd i).orders_28d_avg =
    (daily.map (fun r => r.orders_28d_avg)).getLastD 0 ∧
  (futureFeatures daily cd i).lag_1 = (daily.map (fun r => r.orders)).getLastD 0 ∧
  (futureFeatures daily cd i).lag_7 =
    (if 7 ≤ daily.length then ilocFromEnd (daily.map (fun r => r.orders)) 7 else 0) ∧
  (futureFeatures daily cd i).lag_14 =
    (if 14 ≤ daily.length then ilocFromEnd (daily.map (fun r => r.orders)) 14 else 0) ∧
  (futureFeatures daily cd i).lag_28 =
    (if 28 ≤ daily.length then ilocFromEnd (daily.map (fun r => r.orders)) 28 else 0) ∧
  (futureFeatures daily cd i).orders_7d_avg = (futureFeatures daily cd j).orders_7d_avg ∧
  (futureFeatures daily cd i).orders_28d_avg = (futureFeatures daily cd j).orders_28d_avg ∧
  (futureFeatures daily cd i).lag_1 = (futureFeatures daily cd j).lag_1 ∧
  (futureFeatures daily cd i).lag_7 = (futureFeatures daily cd j).lag_7 ∧
  (futureFeatures daily cd i).lag_14 = (futureFeatures daily cd j).lag_14 ∧
  (futureFeatures daily cd i).lag_28 = (futureFeatures daily cd j).lag_28 ∧
  (futureFeatures daily cd i).day_of_week =
    dayOfWeek (listMaxD (daily.map (fun r => r.ds)) + 1 + i) ∧
  (futureFeatures daily cd i).time_idx =
    listMaxD (daily.map (fun r => r.ds)) + 1 + i - listMinD (daily.map (fun r => r.ds))

/-- Claim C6: every pair of the 90 future feature rows of the customer
forecaster carries identical lag-1/7/14/28 and 7/28-day rolling-mean
inputs, frozen at the last known historical values; only the calendar
fields are recomputed from each future date. -/
theorem c6_frozen_lag_features (daily : List DailyRow) (cd : List OrderRecord)
    (i j : Nat) (hi : i < 90) (hj : j < 90) : staticFutureInputs daily cd i j := by
  unfold staticFutureInputs futureFeatures
  exact ⟨rfl, rfl, rfl, rfl, rfl, rfl, rfl, rfl, rfl, rfl, rfl, rfl, rfl, rfl⟩

/-- Witness for C6 at a concrete series and the pair of future days 0
and 5. -/
theorem c6_frozen_lag_features_witness :
    staticFutureInputs (prepare_enhanced_data gapDf) gapDf 0 5 :=
  c6_frozen_lag_features (prepare_enhanced_data gapDf) gapDf 0 5 (by decide) (by decide)

/-! Section: Claim C7 -/

/-- Per-row safety of the engineered features at position `i`: rolling
means are nonnegative, the time index equals the distance from the
start of the series, each lag-k feature is zero when the distance from
the start is below k, and no row of the dense series is dropped. -/
def featureSafetyAt (data : List OrderRecord) (i : Nat) : Prop :=
  0 ≤ (featureRowAt data i).orders_7d_avg ∧
  0 ≤ (featureRowAt data i).orders_28d_avg ∧
  (featureRowAt data i).time_idx = i ∧
  (i < 1 → (featureRowAt data i).lag_1 = 0) ∧
  (i < 7 → (featureRowAt data i).lag_7 = 0) ∧
  (i < 14 → (featureRowAt data i).lag_14 = 0) ∧
  (i < 28 → (featureRowAt data i).lag_28 = 0) ∧
  (prepare_enhanced_data data).length = seriesLen data

/-- Claim C7: every row of the customer feature table has nonnegative
rolling means, totally defined features, and zero lag-k features
whenever fewer than k days of history precede the row; the full dense
series survives (nothing is dropped), so training proceeds on every
nonempty input. -/
theorem c7_feature_safety (data : List OrderRecord) (i : Nat)
    (hi : i < seriesLen data) : featureSafetyAt data i := by
  unfold featureSafetyAt
  rw [featureRowAt_def data i hi]
  refine ⟨rollingMean_nonneg 7 _ i, rollingMean_nonneg 28 _ i, rfl, ?_, ?_, ?_, ?_,
    prepare_enhanced_data_length data⟩
  all_goals intro hk
  all_goals exact lagFeature_eq_zero _ _ _ hk

/-- Witness for C7 at the second row of a concrete three-day series. -/
theorem c7_feature_safety_witness : featureSafetyAt gapDf 1 :=
  c7_feature_safety gapDf 1 (by decide)

/-! Section: Claim C8 -/

/-- Claim C8, amended: the two wall-clock readers are deterministic in
the input data TOGETHER WITH the current date: "days since last order"
equals the current day minus the last order date (so it changes as the
clock advances), and the future-resource projection is unchanged
between two run times exactly when they classify every forecast date
identically. -/
theorem c8_determinism_given_clock (data : List OrderRecord) (forecast : List ForecastRow)
    (w e : Rat) (now now2 : Nat)
    (h : ∀ r ∈ forecast, now < r.ds ↔ now2 < r.ds) :
    calculate_future_resource forecast w e now = calculate_future_resource forecast w e now2 ∧
    daysSinceLastOrder data now = (now : Int) - (maxStartDate data : Int) := by
  refine ⟨?_, rfl⟩
  unfold calculate_future_resource
  congr 1
  apply List.filter_congr
  intro r hr
  exact decide_eq_decide.mpr (h r hr)

/-- Witness for C8's amended statement at two concrete run times that
agree on the single forecast date. -/
theorem c8_determinism_given_clock_witness :
    calculate_future_resource exForecast 1 1 2 = calculate_future_resource exForecast 1 1 3 ∧
    daysSinceLastOrder oneDayDf 2 = (2 : Int) - (maxStartDate oneDayDf : Int) :=
  c8_determinism_given_clock oneDayDf exForecast 1 1 2 3 (by decide)

/-- Counterexample to C8 as stated: both cited computations read the
wall clock.  Running "days since last order" on the same data at day 5
and at day 6 yields different insights, and running the future
resource projection at day 0 and at day 1 yields different row sets
(the day-1 forecast row is dropped once the clock passes it). -/
theorem c8_wall_clock_counterexample :
    daysSinceLastOrder oneDayDf 5 ≠ daysSinceLastOrder oneDayDf 6 ∧
    calculate_future_resource exForecast 1 1 0 ≠ calculate_future_resource exForecast 1 1 1 := by
  constructor
  · decide
  · intro h
    have hlen := congrArg List.length h
    simp [calculate_future_resource, exForecast] at hlen

/-! Section: Claim C9 -/

/-- Claim C9, amended: the report's recommended minimum daily stock is
`max 1 (round (lower-bound average))` — clamped below at one unit, not
the bare rounded average; the weekly restocking range is ±20% around
`avg_daily × 7` and the buffer stock is `round(2 × upper average)` as
claimed.  In particular, when the lower-bound average rounds to zero
(or below) the minimum stock is 1, not 0. -/
theorem c9_report_heuristics (actual : List (Nat × Nat)) (forecast : List ForecastRow) :
    (generate_business_report actual forecast).min_stock =
      max 1 (pyRound (generate_business_report actual forecast).avg_lower) ∧
    (generate_business_report actual forecast).weekly_stock_lo =
      pyRound ((generate_business_report actual forecast).avg_daily * 7 * (4 / 5 : Rat)) ∧
    (generate_business_report actual forecast).weekly_stock_hi =
      pyRound ((generate_business_report actual forecast).avg_daily * 7 * (6 / 5 : Rat)) ∧
    (generate_business_report actual forecast).buffer_stock =
      pyRound ((generate_business_report actual forecast).avg_upper * 2) ∧
    (pyRound (generate_business_report actual forecast).avg_lower ≤ 0 →
      (generate_business_report actual forecast).min_stock = 1) := by
  refine ⟨rfl, rfl, rfl, rfl, fun h => ?_⟩
  show max 1 (pyRound (generate_business_report actual forecast).avg_lower) = 1
  omega

/-- Witness for C9's amended statement on a concrete forecast whose
lower-bound average is 1/5. -/
theorem c9_report_heuristics_witness :
    (generate_business_report [(0, 1)] lowBandForecast).min_stock =
      max 1 (pyRound (generate_business_report [(0, 1)] lowBandForecast).avg_lower) ∧
    (generate_business_report [(0, 1)] lowBandForecast).min_stock = 1 :=
  ⟨(c9_report_heuristics [(0, 1)] lowBandForecast).1,
   (c9_report_heuristics [(0, 1)] lowBandForecast).2.2.2.2
     (by
       have h : (generate_business_report [(0, 1)] lowBandForecast).avg_lower = 1 / 5 := by
         norm_num [generate_business_report, lowBandForecast, colMean, listMaxD,
           List.filter_cons, List.filter_nil]
       rw [h]
       norm_num [pyRound, ratFloor])⟩

/-- Counterexample to C9 as stated: for a forecast period whose
lower-bound average is 1/5 (which rounds to 0), the report recommends
a minimum stock of 1, not the rounded average 0 — the code clamps with
`max(1, ...)`. -/
theorem c9_min_stock_counterexample :
    pyRound ((generate_business_report [(0, 1)] lowBandForecast).avg_lower) = 0 ∧
    (generate_business_report [(0, 1)] lowBandForecast).min_stock = 1 := by
  have h : (generate_business_report [(0, 1)] lowBandForecast).avg_lower = 1 / 5 := by
    norm_num [generate_business_report, lowBandForecast, colMean, listMaxD,
      List.filter_cons, List.filter_nil]
  have hz : pyRound ((generate_business_report [(0, 1)] lowBandForecast).avg_lower) = 0 := by
    rw [h]
    norm_num [pyRound, ratFloor]
  refine ⟨hz, ?_⟩
  show max 1 (pyRound (generate_business_report [(0, 1)] lowBandForecast).avg_lower) = 1
  omega

/-! Section: Claim C10 -/

theorem laundry_rows_orderCount_pos (detector : List (Rat × Rat) → Nat → Int)
    (df : List OrderRecord) (lid : String) (rows : List ResourceDayRow)
    (hrows : laundry_resource_analysis detector df lid = some rows) :
    ∀ r ∈ rows, 1 ≤ r.orderCount := by
  simp only [laundry_resource_analysis] at hrows
  split at hrows
  · rw [Option.some_inj] at hrows
    subst hrows
    intro r hr
    rw [List.mem_map] at hr
    obtain ⟨i, hi, rfl⟩ := hr
    rw [List.mem_range] at hi
    show 1 ≤ ((sortedOrderDates (df.filter (fun r => r.laundryID = lid))).map
      (fun d => ordersOn (df.filter (fun r => r.laundryID = lid)) d)).getD i 0
    have hlen : i < ((sortedOrderDates (df.filter (fun r => r.laundryID = lid))).map
        (fun d => ordersOn (df.filter (fun r => r.laundryID = lid)) d)).length := by
      simpa using hi
    rw [List.getD_eq_getElem _ _ hlen]
    rw [List.getElem_map]
    exact ordersOn_pos_of_mem_sortedOrderDates _ _ (List.getElem_mem _)
  · exact absurd hrows (by simp)

/-- Claim C10: every row of the resource analyzer's output counts at
least one order (each aggregated day comes from a nonempty group), so
its order count is nonzero as a rational and the per-order and overall
efficiency ratios computed from the output never divide by zero. -/
theorem c10_order_count_positive (detector : List (Rat × Rat) → Nat → Int)
    (df : List OrderRecord) (lid : String) (rows : List ResourceDayRow)
    (hrows : laundry_resource_analysis detector df lid = some rows)
    (r : ResourceDayRow) (hr : r ∈ rows) :
    1 ≤ r.orderCount ∧ ((r.orderCount : Rat) ≠ 0) ∧
    0 < (rows.map (fun x => (x.orderCount : Rat))).sum := by
  have hall := laundry_rows_orderCount_pos detector df lid rows hrows
  have h1 : 1 ≤ r.orderCount := hall r hr
  refine ⟨h1, ?_, ?_⟩
  · have : (0 : Rat) < (r.orderCount : Rat) := by exact_mod_cast h1
    exact ne_of_gt this
  · have hnn : ∀ x ∈ rows.map (fun x => (x.orderCount : Rat)), 0 ≤ x := by
      intro x hx
      rw [List.mem_map] at hx
      obtain ⟨y, -, rfl⟩ := hx
      positivity
    have hmem : ((r.orderCount : Rat)) ∈ rows.map (fun x => (x.orderCount : Rat)) :=
      List.mem_map_of_mem _ hr
    have hle := List.single_le_sum hnn _ hmem
    have : (0 : Rat) < (r.orderCount : Rat) := by exact_mod_cast h1
    linarith

/-- Witness for C10 on the concrete one-day facility table. -/
theorem c10_order_count_positive_witness :
    1 ≤ normalDayRow.orderCount ∧ ((normalDayRow.orderCount : Rat) ≠ 0) ∧
    0 < ([normalDayRow].map (fun x => (x.orderCount : Rat))).sum :=
  c10_order_count_positive constDetector oneDayDf "L1" [normalDayRow]
    laundry_resource_analysis_oneDay normalDayRow (by decide)

end LaundryAI
